import Mathlib

/-!
Verification development for the WordOps GUI backend
(`src/backend/main.py` and `src/backend/wordops.py`).

The Python code is shallowly embedded: pure string manipulation is
translated to Lean functions over `List Char` / `String`; effectful
code (subprocess calls, file writes, archive extraction) is modelled as
functions from an explicit environment (`World` records that fix the
outcomes of external probes and commands) to a trace of events plus a
result.  Fallible endpoints return an explicit outcome type mirroring
the `HTTPException` status codes raised by the FastAPI handlers.
-/

namespace WordopsGui

/-! ## Generic character and string utilities -/

/-- Python `str.split(sep)` for a single-character separator, on char
lists.  `split '/' "" = [[]]`, matching Python `"".split("/") == [""]`. -/
def splitOnChar (sep : Char) : List Char → List (List Char)
  | [] => [[]]
  | c :: rest =>
    let r := splitOnChar sep rest
    if c = sep then [] :: r
    else
      match r with
      | [] => [[c]]
      | s :: ss => (c :: s) :: ss

/-- Whitespace as recognised by Python `str.strip()` (ASCII fragment). -/
def isSpacePy (c : Char) : Bool :=
  c = ' ' || c = '\t' || c = '\n' || c = '\r' || c = '\x0b' || c = '\x0c'

/-- Python `str.strip()` on char lists. -/
def stripPy (l : List Char) : List Char :=
  ((l.dropWhile isSpacePy).reverse.dropWhile isSpacePy).reverse

/-- Python `str.strip()` on strings. -/
def stripStr (s : String) : String :=
  String.mk (stripPy s.data)

/-- Does `needle` occur as a contiguous segment of `hay`?  (Python
`needle in hay` on strings.) -/
def hasSeg (needle : List Char) : List Char → Bool
  | [] => needle.isEmpty
  | c :: t => needle.isPrefixOf (c :: t) || hasSeg needle t

/-- Python `needle in hay` on strings. -/
def strHasSeg (needle hay : String) : Bool :=
  hasSeg needle.data hay.data

/-! ## Path handling (`os.path.join`, `os.path.abspath`)

Only the cases exercised by the backend are modelled: the left operand
of `join` is a fixed absolute directory without a trailing slash, and
`abspath` is applied to absolute inputs only (so it coincides with
`os.path.normpath`). -/

/-- `os.path.join(a, b)`: an absolute right operand discards the left. -/
def pjoin (a b : String) : String :=
  if b.data.head? = some '/' then b else a ++ "/" ++ b

/-- Collapse `.`/empty segments and resolve `..` segments against the
accumulator, as `os.path.normpath` does on an absolute path (a `..` at
the root is dropped). -/
def normAcc : List (List Char) → List (List Char) → List (List Char)
  | acc, [] => acc.reverse
  | acc, s :: rest =>
    if s = [] || s = ['.'] then normAcc acc rest
    else if s = ['.', '.'] then normAcc acc.tail rest
    else normAcc (s :: acc) rest

/-- The normalised path segments of a path string. -/
def pathSegs (p : String) : List (List Char) :=
  normAcc [] (splitOnChar '/' p.data)

/-- `os.path.abspath` restricted to absolute inputs (= `normpath`). -/
def abspath (p : String) : String :=
  "/" ++ String.intercalate "/" ((pathSegs p).map (fun l => String.mk l))

/-! ## VaultStore: `delete_vault_item` (`main.py` 1041-1058) -/

/-- `VAULT_DIR` constant from `main.py`. -/
def VAULT_DIR : String := "/opt/wordops-gui/vault"

/-- Outcome of the vault delete endpoint: HTTP 403 (Forbidden), a
successful deletion, or HTTP 404 (`FileNotFoundError`). -/
inductive VaultOutcome
  | forbidden
  | deleted (filename : String)
  | notFound
  deriving DecidableEq, Repr

/-- `delete_vault_item(filename)` from `main.py`: joins the request
name onto `VAULT_DIR`, rejects with 403 when the absolute path does not
*string-prefix*-match the absolute vault root (`str.startswith`), else
attempts `os.remove`.  `fsHas` tells which paths exist on disk. -/
def delete_vault_item (fsHas : String → Bool) (filename : String) : VaultOutcome :=
  let file_path := pjoin VAULT_DIR filename
  if ((abspath VAULT_DIR).data.isPrefixOf (abspath file_path).data) = false then
    .forbidden
  else if fsHas file_path then .deleted filename
  else .notFound

/-! ## Domain validation (`main.py` 95-99)

The validator is `re.match(r'^[a-z0-9]([a-z0-9-]{0,61}[a-z0-9])?`
`(\.[a-z0-9]([a-z0-9-]{0,61}[a-z0-9])?)*$', v)`: a dot-separated
sequence of labels, each starting and ending with a lowercase
letter/digit, with up to 61 interior characters drawn from
letters/digits/hyphen.  Because the pattern is anchored on both sides
and the label alternatives are prefix-unambiguous, the regex accepts
exactly the strings whose dot-split components all satisfy the label
grammar.  Python `$` also matches just before one final newline; that
case is carried over verbatim. -/

/-- Lowercase ASCII letter or digit (`[a-z0-9]`). -/
def isLowerDigit (c : Char) : Bool :=
  ('a' ≤ c && c ≤ 'z') || ('0' ≤ c && c ≤ '9')

/-- `[a-z0-9-]`. -/
def isLabelChar (c : Char) : Bool :=
  isLowerDigit c || c = '-'

/-- One DNS label: `[a-z0-9]([a-z0-9-]{0,61}[a-z0-9])?`. -/
def validLabel (l : List Char) : Bool :=
  match l with
  | [] => false
  | c :: rest =>
    match rest.reverse with
    | [] => isLowerDigit c
    | d :: midRev =>
      isLowerDigit c && isLowerDigit d && midRev.all isLabelChar
        && decide (midRev.length ≤ 61)

/-- The regex body without the `$`-before-final-newline allowance. -/
def domainCore (l : List Char) : Bool :=
  (splitOnChar '.' l).all validLabel

/-- `SiteCreate.validate_domain` from `main.py`: true iff the anchored
regex matches (the validator raises `ValueError` otherwise). -/
def validate_domain (v : String) : Bool :=
  domainCore v.data ||
    (match v.data.reverse with
     | '\n' :: rest => domainCore rest.reverse
     | _ => false)

/-! ## CommandRunner: `WordOpsService.run_command` (`wordops.py` 17-44)

`subprocess.run(..., check=True)` either raises `FileNotFoundError`
(executable missing, NOT caught by the `except CalledProcessError`
handler, so it propagates), raises `CalledProcessError` on a non-zero
exit (re-raised as a generic `Exception` whose message embeds the
stripped stderr), or returns captured stdout, which is then cleaned of
ANSI escapes and bare `[<digits>m` artifacts and stripped. -/

/-- Outcome of launching one external process. -/
inductive CmdOutcome
  | missingExe
  | exited (code : Nat) (stdout stderr : String)
  deriving DecidableEq, Repr

/-- The exceptions that can escape `run_command`: the generic
`Exception(f"WordOps Error: {stderr.strip()}")` raised on non-zero
exit, and the uncaught `FileNotFoundError`. -/
inductive RunErr
  | pyException (msg : String)
  | fileNotFound
  deriving DecidableEq, Repr

/-- `[@-Z\\-_]`: the single-character alternative of the ANSI regex
(codes 0x40-0x5A and 0x5C-0x5F; `[` itself is excluded). -/
def isEscSingle (c : Char) : Bool :=
  ('@' ≤ c && c ≤ 'Z') || ('\\' ≤ c && c ≤ '_')

/-- CSI parameter bytes `[0-?]` (0x30-0x3F). -/
def isCsiParam (c : Char) : Bool := '0' ≤ c && c ≤ '?'

/-- CSI intermediate bytes (codes 0x20-0x2F). -/
def isCsiInter (c : Char) : Bool := ' ' ≤ c && c ≤ '/'

/-- CSI final bytes `[@-~]` (0x40-0x7E). -/
def isCsiFinal (c : Char) : Bool := '@' ≤ c && c ≤ '~'

/-- Try to match, right after the escape character, the tail of the
ANSI pattern: either one single-class character, or `[` followed by
parameter bytes, intermediate bytes, and one final byte; returns the
rest of the input after the match.  The starred classes are mutually
disjoint and disjoint from the final class, so greedy matching needs
no backtracking. -/
def matchEsc : List Char → Option (List Char)
  | [] => none
  | c :: rest =>
    if isEscSingle c then some rest
    else if c = '[' then
      match (rest.dropWhile isCsiParam).dropWhile isCsiInter with
      | d :: r3 => if isCsiFinal d then some r3 else none
      | [] => none
    else none

/-- `ansi_escape.sub('', s)`: left-to-right scan removing every match
of the ANSI pattern (a match is only possible at an escape char).
Each step consumes at least one input character, so fuel equal to the
input length makes the fuel-exhausted branch unreachable. -/
def stripAnsiAux : Nat → List Char → List Char
  | _, [] => []
  | 0, l => l
  | fuel + 1, c :: rest =>
    if c = '\x1B' then
      match matchEsc rest with
      | some rest2 => stripAnsiAux fuel rest2
      | none => c :: stripAnsiAux fuel rest
    else c :: stripAnsiAux fuel rest

/-- ANSI-escape removal on a char list. -/
def stripAnsi (l : List Char) : List Char := stripAnsiAux l.length l

/-- Try to match a bracketed color artifact (`[` then one or more
ASCII digits then `m`) at the head; returns the rest after the match. -/
def matchBracketNum : List Char → Option (List Char)
  | '[' :: rest =>
    match rest.dropWhile Char.isDigit with
    | 'm' :: r2 => if (rest.takeWhile Char.isDigit).isEmpty then none else some r2
    | _ => none
  | _ => none

/-- `re.sub` removing every bracketed color artifact, via the same
fuel discipline as `stripAnsiAux`. -/
def stripBracketNumAux : Nat → List Char → List Char
  | _, [] => []
  | 0, l => l
  | fuel + 1, c :: rest =>
    match matchBracketNum (c :: rest) with
    | some rest2 => stripBracketNumAux fuel rest2
    | none => c :: stripBracketNumAux fuel rest

/-- Bracketed-color-artifact removal on a char list. -/
def stripBracketNum (l : List Char) : List Char := stripBracketNumAux l.length l

/-- The full stdout-cleaning pipeline of `run_command`. -/
def cleanStdout (out : String) : String :=
  stripStr (String.mk (stripBracketNum (stripAnsi out.data)))

/-- `WordOpsService.run_command` as a function of the launched
process's outcome. -/
def run_command (outcome : CmdOutcome) : Except RunErr String :=
  match outcome with
  | .missingExe => .error .fileNotFound
  | .exited code out err =>
    if code = 0 then .ok (cleanStdout out)
    else .error (.pyException ("WordOps Error: " ++ stripStr err))

/-! ## Execution traces -/

/-- Events observable in an execution trace of the orchestration code. -/
inductive Event
  | cmd (argv : List String)
  | writeFile (path content : String)
  | removeFile (path : String)
  | extract (archive target : String)
  | logError (msg : String)
  deriving DecidableEq, Repr

/-- Is this event a `useradd` invocation? -/
def isUseradd : Event → Bool
  | .cmd (c :: _) => c == "useradd"
  | _ => false

/-! ## Identity ensure (`main.py` 394-399)

`subprocess.run(["id", "-u", sys_user], check=True)` raises
`CalledProcessError` when the user is absent; the handler then runs
`useradd -m -s /bin/false`.  The POSIX user database is modelled as a
list of user names. -/

/-- The identity-ensure step: returns the updated user database and
the trace of invoked commands. -/
def ensureIdentity (users : List String) (sys_user : String) :
    List String × List Event :=
  if sys_user ∈ users then
    (users, [.cmd ["id", "-u", sys_user]])
  else
    (sys_user :: users,
     [.cmd ["id", "-u", sys_user], .cmd ["useradd", "-m", "-s", "/bin/false", sys_user]])

/-! ## HTTP errors

Surrogate for FastAPI `HTTPException(status_code, detail)`. -/

/-- An HTTP error raised by a handler. -/
structure HErr where
  statusCode : Nat
  detail : String
  deriving DecidableEq, Repr

/-! ## User management (`main.py` 720-762)

The SQLAlchemy user table is modelled as a list of records; the
authenticated caller (`admin`, guaranteed `role == "administrator"` by
the `is_admin` dependency) is passed explicitly.  A modified store is
returned only on success, so an error leaves the store unchanged. -/

/-- One row of the `users` table (the fields the handlers consult). -/
structure UserRec where
  id : Nat
  username : String
  role : String
  deriving DecidableEq, Repr

/-- `db.query(User).filter(User.role == "administrator").count()`. -/
def adminCount (db : List UserRec) : Nat :=
  (db.filter (fun u => u.role == "administrator")).length

/-- `db.query(User).filter(User.id == user_id).first()`. -/
def findUser (db : List UserRec) (user_id : Nat) : Option UserRec :=
  db.find? (fun u => u.id == user_id)

/-- `delete_user` from `main.py`: refuses self-deletion, 404s on a
missing id, refuses deleting the last administrator, else deletes. -/
def delete_user (db : List UserRec) (admin : UserRec) (user_id : Nat) :
    Except HErr (List UserRec) :=
  if user_id = admin.id then .error ⟨400, "Cannot delete yourself"⟩
  else
    match findUser db user_id with
    | none => .error ⟨404, "User not found"⟩
    | some target =>
      if target.role == "administrator" && decide (adminCount db ≤ 1) then
        .error ⟨400, "Cannot delete the last administrator"⟩
      else .ok (db.filter (fun u => u.id != user_id))

/-- `update_user` from `main.py`: a falsy role (absent or empty) is a
no-op commit; demoting the last administrator is refused, any other
role update is applied. -/
def update_user (db : List UserRec) (user_id : Nat) (newRole : Option String) :
    Except HErr (List UserRec) :=
  match findUser db user_id with
  | none => .error ⟨404, "User not found"⟩
  | some target =>
    match newRole with
    | none => .ok db
    | some r =>
      if r == "" then .ok db
      else if target.role == "administrator" && !(r == "administrator")
          && decide (adminCount db ≤ 1) then
        .error ⟨400, "Cannot change the role of the last administrator"⟩
      else .ok (db.map (fun u => if u.id = user_id then { u with role := r } else u))

/-! ## Direct nginx config edit (`main.py` 519-569) -/

/-- Environment for `save_nginx_config`: whether the config directory
exists, the current file content (present iff the file exists), and
the outcomes of `sudo nginx -t` and `sudo systemctl reload nginx` as
functions of the on-disk content at the time they run. -/
structure EditWorld where
  dirExists : Bool
  fileContent : Option String
  validateRc : String → Nat
  validateErr : String → String
  reloadRc : String → Nat
  reloadErr : String → String

/-- Observable steps of the config-edit path. -/
inductive EditEv
  | write (content : String)
  | validate
  | reload
  deriving DecidableEq, Repr

/-- A concrete edit environment whose validator always fails. -/
def wEdit1 : EditWorld :=
  { dirExists := true, fileContent := some "old",
    validateRc := fun _ => 1, validateErr := fun _ => "bad directive",
    reloadRc := fun _ => 0, reloadErr := fun _ => "" }

/-- `save_nginx_config` from `main.py`.  Returns the final on-disk
content, the HTTP outcome, and the event trace: write the new config,
run the validator, revert-and-400 (embedding the validator stderr) on
validation failure, else reload, revert-and-500 on reload failure. -/
def save_nginx_config (w : EditWorld) (newCfg : String) :
    Option String × Except HErr String × List EditEv :=
  if w.dirExists then
    match w.fileContent with
    | none => (none, .error ⟨404, "Nginx config file not found."⟩, [])
    | some backup =>
      if w.validateRc newCfg ≠ 0 then
        (some backup,
         .error ⟨400, "NGINX config validation failed: " ++ w.validateErr newCfg⟩,
         [.write newCfg, .validate, .write backup])
      else if w.reloadRc newCfg ≠ 0 then
        (some backup,
         .error ⟨500, "Failed to reload NGINX: " ++ w.reloadErr newCfg⟩,
         [.write newCfg, .validate, .reload, .write backup])
      else
        (some newCfg, .ok "NGINX config saved and reloaded successfully.",
         [.write newCfg, .validate, .reload])
  else
    (w.fileContent, .error ⟨404, "Nginx config directory not found."⟩, [])

/-! ## SiteInfoResolver: `WordOpsService.get_site_info` (`wordops.py` 77-170)

The inner `search` helper runs `re.search(label + r"\s+:\s+(.*)", text)`
and returns `match.group(1).strip()` or the default.  The network
probes (DNS, TCP port 80, the TLS certificate fetch) are modelled by
an explicit probe environment; every exception a probe can raise is
caught inside the function body itself (`except ... pass`), so only
the `run_command` invocation can abort the protected block, and the
enclosing handler turns that into the degraded error record. -/

/-- Match, at the head of the input, the pattern tail right after the
literal label: one or more whitespace, a colon, one or more
whitespace, then the greedy `(.*)` capture up to the end of line. -/
def matchLabelTail : List Char → Option (List Char)
  | [] => none
  | c :: rest =>
    if isSpacePy c then
      match rest.dropWhile isSpacePy with
      | ':' :: r2 =>
        match r2 with
        | [] => none
        | d :: r3 =>
          if isSpacePy d then
            some ((r3.dropWhile isSpacePy).takeWhile (fun e => e != '\n'))
          else none
      | _ => none
    else none

/-- `re.search` scan: at each position try the literal label followed
by `matchLabelTail`; advance one character on failure. -/
def searchLabelAux (label : List Char) : List Char → Option (List Char)
  | [] => none
  | c :: rest =>
    match (if label.isPrefixOf (c :: rest)
           then matchLabelTail ((c :: rest).drop label.length)
           else none) with
    | some v => some v
    | none => searchLabelAux label rest

/-- The `search(pattern, text, default)` helper of `get_site_info`. -/
def searchLabel (label text default : String) : String :=
  match searchLabelAux label.data text.data with
  | some v => String.mk (stripPy v)
  | none => default

/-- The composite status record assembled by `get_site_info`
(nested dicts flattened; the error record's empty sub-dicts become
empty/false fields). -/
structure SiteStatus where
  domain : String
  status : String
  error_message : Option String
  ip : String
  user : String
  root : String
  sslEnabled : Bool
  sslProvider : String
  sslExpires : String
  stackType : String
  stackPhp : String
  stackServer : String
  cacheBackend : String
  cacheStatus : String
  dbName : String
  dbUser : String
  dbHost : String
  deriving DecidableEq, Repr

/-- Environment for one `get_site_info` call: the outcome of
`wo site info <domain>`, the DNS answer, whether a TCP connect to
port 80 succeeds, and the certificate days-to-expiry when the TLS
probe succeeds. -/
structure ProbeEnv where
  infoCmd : CmdOutcome
  dnsIp : Option String
  port80Open : Bool
  sslDaysLeft : Option Int

/-- `str(e)` for the exceptions escaping `run_command` (the
`FileNotFoundError` rendering is fixed to its errno prefix). -/
def renderRunErr : RunErr → String
  | .pyException m => m
  | .fileNotFound => "[Errno 2] No such file or directory"

/-- The minimal record returned by the `except` handler of
`get_site_info`. -/
def errorStatus (domain msg : String) : SiteStatus :=
  { domain := domain, status := "error", error_message := some msg,
    ip := "N/A", user := "N/A", root := "N/A",
    sslEnabled := false, sslProvider := "", sslExpires := "",
    stackType := "", stackPhp := "", stackServer := "",
    cacheBackend := "", cacheStatus := "",
    dbName := "", dbUser := "", dbHost := "" }

/-- The SSL provider label string from the source, built explicitly
around the apostrophe character (code 39). -/
def leProvider : String := "Let" ++ String.singleton (Char.ofNat 39) ++ "s Encrypt"

/-- `WordOpsService.get_site_info`. -/
def get_site_info (env : ProbeEnv) (domain : String) : SiteStatus :=
  match run_command env.infoCmd with
  | .error e => errorStatus domain (renderRunErr e)
  | .ok output =>
    let php_version := searchLabel "PHP Version" output "N/A"
    let ssl_info := searchLabel "SSL" output "Disabled"
    let site_type := searchLabel "Type" output "WordPress"
    let cache_type_raw := searchLabel "Cache" output "None"
    let ipStatus : String × String :=
      match env.dnsIp with
      | none => ("N/A", "offline")
      | some ip => if env.port80Open then (ip, "online") else (ip, "offline")
    let ssl_enabled := strHasSeg "Enabled" ssl_info
    let ssl_expires :=
      if ssl_enabled then
        match env.sslDaysLeft with
        | some d => toString d ++ " days"
        | none => "Unknown"
      else "N/A"
    let cache_backend :=
      if strHasSeg "Redis" cache_type_raw then "Redis"
      else if strHasSeg "FastCGI" cache_type_raw then "FastCGI"
      else if strHasSeg "WpSuperCache" cache_type_raw then "WP Super Cache"
      else "None"
    { domain := domain, status := ipStatus.2, error_message := none,
      ip := ipStatus.1, user := "www-data",
      root := "/var/www/" ++ domain ++ "/htdocs",
      sslEnabled := ssl_enabled,
      sslProvider := if strHasSeg leProvider ssl_info then leProvider else "Self-signed",
      sslExpires := ssl_expires,
      stackType := site_type, stackPhp := php_version, stackServer := "NGINX",
      cacheBackend := cache_backend,
      cacheStatus := if cache_backend != "None" then "enabled" else "disabled",
      dbName := "wo_" ++ String.mk (domain.data.map (fun c => if c = '.' then '_' else c)),
      dbUser := "wo_user", dbHost := "localhost" }

/-! ## IsolationProvisioner: `provision_site_task` (`main.py` 389-445)

The task body is one `try` block; every `check=True` command (and the
`run_command`-backed site creation) raises on failure, which aborts
all later steps and lands in the `except` handler that only logs.
File writes and archive extraction are modelled as always succeeding.
The world fixes the POSIX user database, the vhost file content, the
vault archives (key to zip entry list) and each command's success. -/

/-- Match the nginx directive pattern (literal `fastcgi_pass`, one or
more whitespace — with regex backtracking across the whitespace/
non-semicolon classes this amounts to: a whitespace first character
and a semicolon no earlier than two characters in — then everything
up to and including the first semicolon) at the head of the input;
returns the rest after the match. -/
def matchAtFcgi (l : List Char) : Option (List Char) :=
  if "fastcgi_pass".data.isPrefixOf l then
    match l.drop ("fastcgi_pass".data.length) with
    | [] => none
    | c :: rest =>
      if isSpacePy c then
        match rest.dropWhile (fun e => e != ';') with
        | ';' :: r3 =>
          if (rest.takeWhile (fun e => e != ';')).isEmpty then none else some r3
        | _ => none
      else none
  else none

/-- `re.sub(r"fastcgi_pass\s+[^;]+;", repl, config)`: left-to-right
scan, replacing each match and resuming after it; one character is
consumed per unit of fuel at minimum, so fuel = input length makes
the fuel-exhausted branch unreachable. -/
def subFcgiAux (repl : List Char) : Nat → List Char → List Char
  | _, [] => []
  | 0, l => l
  | fuel + 1, c :: rest =>
    match matchAtFcgi (c :: rest) with
    | some r2 => repl ++ subFcgiAux repl fuel r2
    | none => c :: subFcgiAux repl fuel rest

/-- The vhost patch of step 4: replace every `fastcgi_pass` directive
target with the per-identity socket. -/
def patchFastcgi (new_sock : String) (config : String) : String :=
  String.mk (subFcgiAux ("fastcgi_pass " ++ new_sock ++ ";").data
    config.data.length config.data)

/-- The pool configuration block rendered for the identity
(`main.py` line 402, an f-string). -/
def pool_conf (sys_user : String) : String :=
  "[" ++ sys_user ++ "]\nuser = " ++ sys_user ++ "\ngroup = " ++ sys_user ++
  "\nlisten = /run/php/php-fpm-" ++ sys_user ++
  ".sock\nlisten.owner = www-data\nlisten.group = www-data\npm = ondemand\npm.max_children = 5\npm.process_idle_timeout = 10s\nchdir = /\n"

/-- The argv built by `WordOpsService.create_site` (no admin
credentials are passed from `provision_site_task`). -/
def createSiteCmd (domain php : String) (features : List String) : List String :=
  ["wo", "site", "create", domain, "--php=" ++ php]
    ++ (if features.contains "ssl" then ["-le"] else [])
    ++ (if features.contains "cache" then ["--wpredis"] else [])

/-- The audit-trail line written by the `except` handler. -/
def provErr (domain : String) : String := "Provisioning failed for " ++ domain

/-- Environment of one provisioning run. -/
structure ProvWorld where
  users : List String
  vhost : Option String
  vault : String → Option (List String)
  cmdOk : List String → Bool

/-- Steps 5-6 of the task: the recursive ownership fix, then (only
when the plugin list is non-empty) per-key archive extraction with
theme detection on the first five entries, then the repeated
ownership fix.  A missing vault key is silently skipped. -/
def provPermsOnward (w : ProvWorld) (domain sys_user : String)
    (plugins : List String) : List Event :=
  let chownCmd := ["chown", "-R", sys_user ++ ":" ++ sys_user, "/var/www/" ++ domain]
  if w.cmdOk chownCmd = false then [.cmd chownCmd, .logError (provErr domain)]
  else
    .cmd chownCmd ::
      (if plugins.isEmpty then []
       else
        (plugins.flatMap fun item =>
          match w.vault item with
          | none => []
          | some names =>
            let is_theme := (names.take 5).any (fun f => "style.css".data.isSuffixOf f.data)
            [Event.extract (VAULT_DIR ++ "/" ++ item)
              ("/var/www/" ++ domain ++ "/htdocs/wp-content/"
                ++ (if is_theme then "themes" else "plugins"))])
        ++ [Event.cmd chownCmd])

/-- Step 4 of the task: only when the vhost file exists — rewrite
every proxy-upstream directive to the per-identity socket, validate,
reload; a failing validation or reload aborts the remaining steps. -/
def provNginxOnward (w : ProvWorld) (domain _php sys_user : String)
    (plugins : List String) : List Event :=
  match w.vhost with
  | none => provPermsOnward w domain sys_user plugins
  | some config =>
    let new_sock := "unix:/run/php/php-fpm-" ++ sys_user ++ ".sock"
    let wr := Event.writeFile ("/etc/nginx/sites-available/" ++ domain)
      (patchFastcgi new_sock config)
    if w.cmdOk ["nginx", "-t"] = false then
      [wr, .cmd ["nginx", "-t"], .logError (provErr domain)]
    else if w.cmdOk ["systemctl", "reload", "nginx"] = false then
      [wr, .cmd ["nginx", "-t"], .cmd ["systemctl", "reload", "nginx"],
       .logError (provErr domain)]
    else
      wr :: .cmd ["nginx", "-t"] :: .cmd ["systemctl", "reload", "nginx"]
        :: provPermsOnward w domain sys_user plugins

/-- Step 3 of the task: write the pool file, restart the runtime for
that version (a failure aborts the remaining steps). -/
def provPoolOnward (w : ProvWorld) (domain php sys_user : String)
    (plugins : List String) : List Event :=
  let wr := Event.writeFile ("/etc/php/" ++ php ++ "/fpm/pool.d/" ++ sys_user ++ ".conf")
    (pool_conf sys_user)
  let restart := ["systemctl", "restart", "php" ++ php ++ "-fpm"]
  if w.cmdOk restart = false then [wr, .cmd restart, .logError (provErr domain)]
  else wr :: .cmd restart :: provNginxOnward w domain php sys_user plugins

/-- `provision_site_task`: base site creation, identity ensure, then
the pool/nginx/permissions/plugins pipeline; the first failing
command ends the trace with the audit log line. -/
def provision_site_task (w : ProvWorld) (domain php : String)
    (features plugins : List String) (sys_user : String) : List Event :=
  let c1 := createSiteCmd domain php features
  if w.cmdOk c1 = false then [.cmd c1, .logError (provErr domain)]
  else
    .cmd c1 ::
      (if sys_user ∈ w.users then
        .cmd ["id", "-u", sys_user] :: provPoolOnward w domain php sys_user plugins
      else if w.cmdOk ["useradd", "-m", "-s", "/bin/false", sys_user] = false then
        [.cmd ["id", "-u", sys_user], .cmd ["useradd", "-m", "-s", "/bin/false", sys_user],
         .logError (provErr domain)]
      else
        .cmd ["id", "-u", sys_user] :: .cmd ["useradd", "-m", "-s", "/bin/false", sys_user]
          :: provPoolOnward w domain php sys_user plugins)

/-- The end-to-end scenario world: a fresh identity, an existing
vhost with one proxy-upstream directive, one plugin archive in the
vault, all commands succeeding. -/
def wProv1 : ProvWorld :=
  { users := [],
    vhost := some "fastcgi_pass php81;",
    vault := fun k => if k = "plugin1.zip" then some ["plugin1/plugin1.php"] else none,
    cmdOk := fun _ => true }

/-! ## TeardownCoordinator (`main.py` 967-978 and 800-820) -/

/-- Environment of a teardown run: command successes and which pool
files exist per runtime version and identity. -/
structure TearWorld where
  cmdOk : List String → Bool
  poolExists : String → String → Bool

/-- The site tool deletion argv. -/
def woDeleteCmd (domain : String) : List String :=
  ["wo", "site", "delete", domain, "--no-prompt"]

/-- `terminate_task` from `billing_terminate_site`: ONE `try` block
wraps the whole sequence, and the site deletion goes through
`run_command`, which raises on failure — so a failing site-tool
delete aborts pool removal, restart, pkill and userdel; the later
subprocess calls are `check=False` and cannot raise. -/
def terminate_task (w : TearWorld) (domain : String) (user : Option String)
    (php_ver : String) : List Event :=
  if w.cmdOk (woDeleteCmd domain) = false then
    [.cmd (woDeleteCmd domain),
     .logError ("Billing: Termination failed for " ++ domain)]
  else
    .cmd (woDeleteCmd domain) ::
      (match user with
       | none => []
       | some u =>
         (if w.poolExists php_ver u then
            [.removeFile ("/etc/php/" ++ php_ver ++ "/fpm/pool.d/" ++ u ++ ".conf"),
             .cmd ["systemctl", "restart", "php" ++ php_ver ++ "-fpm"]]
          else [])
         ++ [.cmd ["pkill", "-u", u], .cmd ["userdel", "-r", u]])

/-- `background_delete` from `delete_tenant`: each site deletion has
its own `try` handler, the user/process cleanup uses `check=False`,
and the pool sweep guards each removal with an existence check — so
every sub-step runs regardless of earlier failures. -/
def background_delete (w : TearWorld) (user : String) (sites : List String) :
    List Event :=
  (sites.flatMap fun d =>
    .cmd (woDeleteCmd d) ::
      (if w.cmdOk (woDeleteCmd d) then [] else [.logError ("Error deleting site " ++ d)]))
  ++ [.cmd ["pkill", "-u", user], .cmd ["userdel", "-r", user]]
  ++ (["8.0", "8.1", "8.2", "8.3"].flatMap fun ver =>
      if w.poolExists ver user then
        [.removeFile ("/etc/php/" ++ ver ++ "/fpm/pool.d/" ++ user ++ ".conf"),
         .cmd ["systemctl", "restart", "php" ++ ver ++ "-fpm"]]
      else [])

/-- A teardown world in which every external command fails and every
pool file exists. -/
def wTearFail : TearWorld :=
  { cmdOk := fun _ => false, poolExists := fun _ _ => true }

end WordopsGui

namespace WordopsGui

/-! ## Theorems -/

/-- `l.isPrefixOf l` for char lists. -/
theorem charsPrefixOfSelf : ∀ (l : List Char), l.isPrefixOf l = true := by
  intro l
  induction l with
  | nil => rfl
  | cons c t ih => simp [List.isPrefixOf, ih]

/-- A suffix occurs as a segment. -/
theorem hasSeg_append_self : ∀ (p l : List Char), hasSeg l (p ++ l) = true := by
  intro p l
  induction p with
  | nil =>
    cases l with
    | nil => rfl
    | cons c t => simp [hasSeg, charsPrefixOfSelf]
  | cons c p ih => simp [hasSeg, ih]

/-- With no duplicate ids, looking up a member's id finds that member. -/
theorem findUser_mem_nodup :
    ∀ (db : List UserRec) (u : UserRec),
      (db.map UserRec.id).Nodup → u ∈ db → findUser db u.id = some u := by
  intro db u hnd hmem
  induction db with
  | nil => cases hmem
  | cons v rest ih =>
    simp only [List.map_cons, List.nodup_cons] at hnd
    rcases List.mem_cons.mp hmem with h | h
    · subst h
      simp [findUser, List.find?]
    · have hne : v.id ≠ u.id := by
        intro he
        exact hnd.1 (he ▸ List.mem_map_of_mem UserRec.id h)
      have := ih hnd.2 h
      simp only [findUser, List.find?] at this ⊢
      have hb : (v.id == u.id) = false := beq_eq_false_iff_ne.mpr hne
      simp [hb, this]

/-- With exactly one administrator in the store, any two administrator
members coincide. -/
theorem unique_admin_of_count_one :
    ∀ (db : List UserRec) (a b : UserRec),
      adminCount db = 1 →
      a ∈ db → a.role = "administrator" →
      b ∈ db → b.role = "administrator" → a = b := by
  intro db a b hc ha hra hb hrb
  have ha' : a ∈ db.filter (fun u => u.role == "administrator") :=
    List.mem_filter.mpr ⟨ha, by simp [hra]⟩
  have hb' : b ∈ db.filter (fun u => u.role == "administrator") :=
    List.mem_filter.mpr ⟨hb, by simp [hrb]⟩
  unfold adminCount at hc
  rcases List.length_eq_one.mp hc with ⟨x, hx⟩
  rw [hx] at ha' hb'
  simp only [List.mem_singleton] at ha' hb'
  rw [ha', hb']

/-- With no duplicate ids, two members sharing an id coincide. -/
theorem userRec_id_inj :
    ∀ (db : List UserRec) (a b : UserRec),
      (db.map UserRec.id).Nodup → a ∈ db → b ∈ db → a.id = b.id → a = b := by
  intro db a b hnd ha hb hid
  have h1 := findUser_mem_nodup db a hnd ha
  have h2 := findUser_mem_nodup db b hnd hb
  rw [hid] at h1
  exact Option.some.inj (h1.symm.trans h2)

/-- String concatenation on the underlying char lists. -/
theorem strData_append : ∀ (p l : String), (p ++ l).data = p.data ++ l.data := by
  intro p l
  cases p
  cases l
  rfl

/-- C5: with exactly one administrator in the store, deleting that
administrator fails with HTTP 400 (the sole administrator is
necessarily the authenticated caller, so the self-deletion guard
refuses even before the last-administrator guard) and demoting them
fails with the last-administrator 400; an error returns no modified
store, so the store is unchanged.  With two administrators, an
administrator caller can delete the other and demote the other. -/
theorem C5_last_admin_invariant :
    (∀ (db : List UserRec) (theAdmin caller : UserRec),
        (db.map UserRec.id).Nodup →
        theAdmin ∈ db → theAdmin.role = "administrator" → adminCount db = 1 →
        caller ∈ db → caller.role = "administrator" →
        (∃ e, delete_user db caller theAdmin.id = .error e ∧ e.statusCode = 400) ∧
        (∃ e, update_user db theAdmin.id (some "read-only") = .error e ∧
          e.statusCode = 400 ∧
          e.detail = "Cannot change the role of the last administrator")) ∧
    (∀ (db : List UserRec) (a b : UserRec),
        (db.map UserRec.id).Nodup → a ∈ db → b ∈ db → a ≠ b →
        a.role = "administrator" → b.role = "administrator" → adminCount db = 2 →
        (∃ db2, delete_user db a b.id = .ok db2) ∧
        (∃ db2, update_user db b.id (some "read-only") = .ok db2)) := by
  constructor
  · intro db theAdmin caller hnd hmem hrole hcount hcmem hcrole
    have hca : caller = theAdmin :=
      unique_admin_of_count_one db caller theAdmin hcount hcmem hcrole hmem hrole
    refine ⟨⟨⟨400, "Cannot delete yourself"⟩, ?_, rfl⟩,
      ⟨⟨400, "Cannot change the role of the last administrator"⟩, ?_, rfl, rfl⟩⟩
    · simp [delete_user, hca]
    · have hf := findUser_mem_nodup db theAdmin hnd hmem
      simp [update_user, hf, hrole, hcount]
  · intro db a b hnd ha hb hne hra hrb hcount
    have hidne : b.id ≠ a.id := fun h => hne (userRec_id_inj db b a hnd hb ha h).symm
    have hf := findUser_mem_nodup db b hnd hb
    constructor
    · exact ⟨db.filter (fun u => u.id != b.id),
        by simp [delete_user, hidne, hf, hrb, hcount]⟩
    · exact ⟨db.map (fun u => if u.id = b.id then { u with role := "read-only" } else u),
        by simp [update_user, hf, hrb, hcount]⟩

/-- C5 witness: concrete one-administrator and two-administrator
stores. -/
theorem C5_last_admin_invariant_witness :
    ((∃ e, delete_user [⟨1, "admin", "administrator"⟩] ⟨1, "admin", "administrator"⟩ 1
        = .error e ∧ e.statusCode = 400) ∧
     (∃ e, update_user [⟨1, "admin", "administrator"⟩] 1 (some "read-only")
        = .error e ∧ e.statusCode = 400 ∧
        e.detail = "Cannot change the role of the last administrator")) ∧
    ((∃ db2, delete_user [⟨1, "a", "administrator"⟩, ⟨2, "b", "administrator"⟩]
        ⟨1, "a", "administrator"⟩ 2 = .ok db2) ∧
     (∃ db2, update_user [⟨1, "a", "administrator"⟩, ⟨2, "b", "administrator"⟩]
        2 (some "read-only") = .ok db2)) :=
  ⟨C5_last_admin_invariant.1 [⟨1, "admin", "administrator"⟩]
      ⟨1, "admin", "administrator"⟩ ⟨1, "admin", "administrator"⟩
      (by decide) (by decide) rfl (by decide) (by decide) rfl,
   C5_last_admin_invariant.2 [⟨1, "a", "administrator"⟩, ⟨2, "b", "administrator"⟩]
      ⟨1, "a", "administrator"⟩ ⟨2, "b", "administrator"⟩
      (by decide) (by decide) (by decide) (by decide) rfl rfl (by decide)⟩

/-- C3: for a direct nginx config edit over an existing file — if
validation fails, the final content equals the prior content
byte-for-byte and the 400 detail embeds the validator stderr; if
validation succeeds but reload fails, the content is likewise
restored before the 500 is reported; and in every execution whose
trace reaches a reload, the validation step precedes it. -/
theorem C3_config_edit_revert :
    (∀ (w : EditWorld) (newCfg backup : String),
        w.dirExists = true → w.fileContent = some backup →
        (w.validateRc newCfg ≠ 0 →
          (save_nginx_config w newCfg).1 = some backup ∧
          ∃ e, (save_nginx_config w newCfg).2.1 = .error e ∧ e.statusCode = 400 ∧
            e.detail = "NGINX config validation failed: " ++ w.validateErr newCfg ∧
            hasSeg (w.validateErr newCfg).data e.detail.data = true) ∧
        (w.validateRc newCfg = 0 → w.reloadRc newCfg ≠ 0 →
          (save_nginx_config w newCfg).1 = some backup ∧
          ∃ e, (save_nginx_config w newCfg).2.1 = .error e ∧ e.statusCode = 500 ∧
            e.detail = "Failed to reload NGINX: " ++ w.reloadErr newCfg)) ∧
    (∀ (w : EditWorld) (newCfg : String),
        EditEv.reload ∈ (save_nginx_config w newCfg).2.2 →
        ∃ pre post, (save_nginx_config w newCfg).2.2 = pre ++ EditEv.validate :: post ∧
          EditEv.reload ∉ pre) := by
  constructor
  · intro w newCfg backup hdir hfile
    constructor
    · intro hval
      unfold save_nginx_config
      rw [hdir, if_pos rfl, hfile]
      dsimp only
      rw [if_pos hval]
      exact ⟨rfl, ⟨400, "NGINX config validation failed: " ++ w.validateErr newCfg⟩,
        rfl, rfl, rfl, by rw [strData_append]; exact hasSeg_append_self _ _⟩
    · intro hval hrel
      unfold save_nginx_config
      rw [hdir, if_pos rfl, hfile]
      dsimp only
      rw [if_neg (show ¬w.validateRc newCfg ≠ 0 from fun h => h hval), if_pos hrel]
      exact ⟨rfl, ⟨500, "Failed to reload NGINX: " ++ w.reloadErr newCfg⟩, rfl, rfl, rfl⟩
  · intro w newCfg hmem
    unfold save_nginx_config at hmem ⊢
    by_cases hd : w.dirExists = true
    · rw [if_pos hd] at hmem ⊢
      cases hfc : w.fileContent with
      | none => rw [hfc] at hmem; simp at hmem
      | some backup =>
        rw [hfc] at hmem
        dsimp only at hmem ⊢
        by_cases hv : w.validateRc newCfg ≠ 0
        · rw [if_pos hv] at hmem
          simp at hmem
        · rw [if_neg hv] at hmem ⊢
          by_cases hr : w.reloadRc newCfg ≠ 0
          · rw [if_pos hr] at hmem ⊢
            exact ⟨[.write newCfg], [.reload, .write backup], rfl, by simp⟩
          · rw [if_neg hr] at hmem ⊢
            exact ⟨[.write newCfg], [.reload], rfl, by simp⟩
    · rw [if_neg hd] at hmem
      simp at hmem

/-- A nonempty prefixed message is not the empty string. -/
theorem prefixed_msg_ne_empty :
    ∀ (p s : String), p.data ≠ [] → p ++ s ≠ "" := by
  intro p s hp h
  have hd := congrArg String.data h
  rw [strData_append] at hd
  exact hp (List.append_eq_nil.mp hd).1

/-- C4: the site-status resolver is a total function of its probe
environment — when the info command fails it returns the degraded
record with status `"error"` and a nonempty error message, and when
the command succeeds it returns a composite record (no error message,
the requested domain, and an online/offline liveness status). -/
theorem C4_resolver_never_raises :
    ∀ (env : ProbeEnv) (domain : String),
      (∀ e, run_command env.infoCmd = .error e →
        get_site_info env domain = errorStatus domain (renderRunErr e) ∧
        (get_site_info env domain).status = "error" ∧
        ∃ m, (get_site_info env domain).error_message = some m ∧ m ≠ "") ∧
      (∀ out, run_command env.infoCmd = .ok out →
        (get_site_info env domain).error_message = none ∧
        (get_site_info env domain).domain = domain ∧
        ((get_site_info env domain).status = "online" ∨
         (get_site_info env domain).status = "offline")) := by
  intro env domain
  constructor
  · intro e he
    have hg : get_site_info env domain = errorStatus domain (renderRunErr e) := by
      unfold get_site_info
      rw [he]
    refine ⟨hg, by rw [hg]; rfl, renderRunErr e, by rw [hg]; rfl, ?_⟩
    cases hc : env.infoCmd with
    | missingExe =>
      rw [hc] at he
      have hefn : RunErr.fileNotFound = e := Except.error.inj he
      rw [← hefn]
      decide
    | exited code out err =>
      rw [hc] at he
      by_cases hz : code = 0
      · simp [run_command, hz] at he
      · simp only [run_command, if_neg hz] at he
        have hee : RunErr.pyException ("WordOps Error: " ++ stripStr err) = e :=
          Except.error.inj he
        rw [← hee]
        exact prefixed_msg_ne_empty "WordOps Error: " (stripStr err) (by decide)
  · intro out ho
    unfold get_site_info
    rw [ho]
    refine ⟨rfl, rfl, ?_⟩
    cases hdns : env.dnsIp with
    | none => right; dsimp only
    | some ip =>
      cases hp : env.port80Open with
      | true => left; dsimp only; rfl
      | false => right; dsimp only; rfl

/-- C4 witness: a missing site tool degrades to the error record. -/
theorem C4_resolver_never_raises_witness :
    get_site_info ⟨CmdOutcome.missingExe, none, false, none⟩ "site1.com"
      = errorStatus "site1.com" (renderRunErr RunErr.fileNotFound) ∧
    (get_site_info ⟨CmdOutcome.missingExe, none, false, none⟩ "site1.com").status = "error" ∧
    ∃ m, (get_site_info ⟨CmdOutcome.missingExe, none, false, none⟩
        "site1.com").error_message = some m ∧ m ≠ "" :=
  (C4_resolver_never_raises ⟨CmdOutcome.missingExe, none, false, none⟩ "site1.com").1
    RunErr.fileNotFound rfl

/-- C3 witness: a concrete edit world with a failing validator. -/
theorem C3_config_edit_revert_witness :
    (save_nginx_config wEdit1 "new").1 = some "old" ∧
    ∃ e, (save_nginx_config wEdit1 "new").2.1 = .error e ∧ e.statusCode = 400 ∧
      e.detail = "NGINX config validation failed: " ++ wEdit1.validateErr "new" ∧
      hasSeg (wEdit1.validateErr "new").data e.detail.data = true :=
  (C3_config_edit_revert.1 wEdit1 "new" "old" rfl rfl).1 (by decide)

/-- C9: Domain validation on site creation accepts `example.com` and
`sub.example-site.co`, and rejects `invalid_domain` (underscore),
`-lead.com` (leading hyphen in a label), and the empty string. -/
theorem C9_domain_validation :
    validate_domain "example.com" = true ∧
    validate_domain "sub.example-site.co" = true ∧
    validate_domain "invalid_domain" = false ∧
    validate_domain "-lead.com" = false ∧
    validate_domain "" = false := by
  decide

/-- C2: the claim that every traversal-style delete name resolving
outside the vault root is rejected with Forbidden fails on the code:
the containment check is `str.startswith` on absolute paths, so the
name `../vault-extra/f` — whose resolved path
`/opt/wordops-gui/vault-extra/f` lies outside the vault root (its
segments do not extend the root segments) — passes the check and the
file is deleted.  The concrete case from the spec,
`../../etc/passwd`, *is* rejected. -/
theorem C2_vault_escape_eval :
    delete_vault_item (fun p => p == "/opt/wordops-gui/vault/../vault-extra/f")
        "../vault-extra/f" = VaultOutcome.deleted "../vault-extra/f" ∧
    abspath (pjoin VAULT_DIR "../vault-extra/f") = "/opt/wordops-gui/vault-extra/f" ∧
    (pathSegs VAULT_DIR).isPrefixOf
      (pathSegs (abspath (pjoin VAULT_DIR "../vault-extra/f"))) = false ∧
    delete_vault_item (fun _ => false) "../../etc/passwd" = VaultOutcome.forbidden := by
  refine ⟨by decide, by decide, by decide, by decide⟩

/-- C10: the vault-delete containment check compares string prefixes of
absolute paths: every name whose resolved absolute path begins with the
vault-root string passes the check, and in particular the
parent-segment name `../vault-extra/g` (resolving to the sibling
directory `/opt/wordops-gui/vault-extra`) is not rejected with
Forbidden. -/
theorem C10_prefix_containment :
    (∀ (fsHas : String → Bool) (name : String),
        ((abspath VAULT_DIR).data.isPrefixOf (abspath (pjoin VAULT_DIR name)).data) = true →
        delete_vault_item fsHas name ≠ VaultOutcome.forbidden) ∧
    delete_vault_item (fun p => p == "/opt/wordops-gui/vault/../vault-extra/g")
        "../vault-extra/g" = VaultOutcome.deleted "../vault-extra/g" ∧
    abspath (pjoin VAULT_DIR "../vault-extra/g") = "/opt/wordops-gui/vault-extra/g" := by
  refine ⟨?_, by decide, by decide⟩
  intro fsHas name h
  unfold delete_vault_item
  simp only [h]
  split
  · simp_all
  · split <;> simp

/-- Witness for C10: a plain in-vault name passes the containment
check, so the delete is not rejected with Forbidden. -/
theorem C10_prefix_containment_witness :
    delete_vault_item (fun _ => false) "inside.zip" ≠ VaultOutcome.forbidden :=
  C10_prefix_containment.1 (fun _ => false) "inside.zip" (by decide)

/-- C7 counterexample: the error raised on non-zero exit does not
carry the exit code (it is a generic `Exception` whose message embeds
only the stripped stderr), so two runs differing only in their exit
codes fail identically — refuting "a typed CommandError carrying the
exit code". -/
theorem C7_exit_code_not_carried :
    run_command (CmdOutcome.exited 1 "" "boom")
      = run_command (CmdOutcome.exited 2 "" "boom") := rfl

/-- C7 (amended): on zero exit `run_command` returns the trimmed,
ANSI-stripped stdout; on non-zero exit it fails with a generic
exception whose message embeds the trimmed captured stderr (neither a
distinct error type nor the exit code); a missing executable
propagates as `FileNotFoundError`, which is distinct from the
non-zero-exit exception.  A concrete colored stdout is cleaned. -/
theorem C7_run_command_contract :
    (∀ out err, run_command (CmdOutcome.exited 0 out err) = Except.ok (cleanStdout out)) ∧
    (∀ code out err, code ≠ 0 → run_command (CmdOutcome.exited code out err)
        = Except.error (RunErr.pyException ("WordOps Error: " ++ stripStr err))) ∧
    run_command CmdOutcome.missingExe = Except.error RunErr.fileNotFound ∧
    (∀ m, RunErr.fileNotFound ≠ RunErr.pyException m) ∧
    run_command (CmdOutcome.exited 0 "  \x1B[32mok\x1B[0m done [34m " "")
      = Except.ok "ok done" := by
  refine ⟨fun out err => rfl, fun code out err h => ?_, rfl,
    fun m h => RunErr.noConfusion h, rfl⟩
  simp [run_command, h]

/-- C7 witness: the non-zero-exit branch at a concrete input. -/
theorem C7_run_command_contract_witness :
    run_command (CmdOutcome.exited 1 "out" "  err ")
      = Except.error (RunErr.pyException ("WordOps Error: " ++ stripStr "  err ")) :=
  C7_run_command_contract.2.1 1 "out" "  err " (by decide)

/-- C1: provisioning `site1.com` with the fresh identity `u_site1`
and one plugin archive key produces exactly, in order: the base-site
creation command, the identity probe and creation, the pool-file
write (whose content holds the `[u_site1]` header and the
`user = u_site1` run-as binding), the runtime worker-manager restart,
the vhost rewrite (whose new `fastcgi_pass` value contains the
`u_site1` socket path), validation and reload, the ownership fix on
`/var/www/site1.com`, the archive extraction into
`/var/www/site1.com/htdocs/wp-content/plugins`, and the second
ownership fix — so the pool write (position 3) and the restart
(position 4) precede the vhost patch (position 5). -/
theorem C1_provision_order :
    provision_site_task wProv1 "site1.com" "8.1" [] ["plugin1.zip"] "u_site1" =
      [.cmd ["wo", "site", "create", "site1.com", "--php=8.1"],
       .cmd ["id", "-u", "u_site1"],
       .cmd ["useradd", "-m", "-s", "/bin/false", "u_site1"],
       .writeFile "/etc/php/8.1/fpm/pool.d/u_site1.conf" (pool_conf "u_site1"),
       .cmd ["systemctl", "restart", "php8.1-fpm"],
       .writeFile "/etc/nginx/sites-available/site1.com"
         "fastcgi_pass unix:/run/php/php-fpm-u_site1.sock;",
       .cmd ["nginx", "-t"],
       .cmd ["systemctl", "reload", "nginx"],
       .cmd ["chown", "-R", "u_site1:u_site1", "/var/www/site1.com"],
       .extract "/opt/wordops-gui/vault/plugin1.zip"
         "/var/www/site1.com/htdocs/wp-content/plugins",
       .cmd ["chown", "-R", "u_site1:u_site1", "/var/www/site1.com"]] ∧
    hasSeg "[u_site1]".data (pool_conf "u_site1").data = true ∧
    hasSeg "user = u_site1".data (pool_conf "u_site1").data = true ∧
    hasSeg "u_site1".data "unix:/run/php/php-fpm-u_site1.sock".data = true :=
  ⟨rfl, rfl, rfl, rfl⟩

/-- C6 counterexample: in `terminate_task` a failing site-tool delete
aborts every remaining sub-step — the trace stops at the audit line,
with no process kill, no user deletion and no pool-file removal —
refuting the claim that each sub-step is independently best-effort. -/
theorem C6_terminate_abort_counterexample :
    terminate_task wTearFail "site1.com" (some "u_site1") "8.1" =
      [Event.cmd ["wo", "site", "delete", "site1.com", "--no-prompt"],
       Event.logError "Billing: Termination failed for site1.com"] ∧
    Event.cmd ["pkill", "-u", "u_site1"]
      ∉ terminate_task wTearFail "site1.com" (some "u_site1") "8.1" ∧
    Event.cmd ["userdel", "-r", "u_site1"]
      ∉ terminate_task wTearFail "site1.com" (some "u_site1") "8.1" ∧
    Event.removeFile "/etc/php/8.1/fpm/pool.d/u_site1.conf"
      ∉ terminate_task wTearFail "site1.com" (some "u_site1") "8.1" := by
  refine ⟨rfl, by decide, by decide, by decide⟩

/-- C6 (amended): in the tenant bulk teardown (`background_delete`)
every sub-step is independently best-effort — the process kill, user
deletion and (for each runtime version with a pool file present) the
pool-file removal all appear in the trace regardless of any command
failures; in the single-site billing termination (`terminate_task`),
by contrast, a failing site-tool delete ends the run at the logged
audit line and the remaining sub-steps never execute. -/
theorem C6_teardown_best_effort_amended :
    (∀ (w : TearWorld) (user : String) (sites : List String),
        Event.cmd ["pkill", "-u", user] ∈ background_delete w user sites ∧
        Event.cmd ["userdel", "-r", user] ∈ background_delete w user sites ∧
        (∀ ver, ver ∈ ["8.0", "8.1", "8.2", "8.3"] → w.poolExists ver user = true →
          Event.removeFile ("/etc/php/" ++ ver ++ "/fpm/pool.d/" ++ user ++ ".conf")
            ∈ background_delete w user sites)) ∧
    (∀ (w : TearWorld) (domain u ver : String),
        w.cmdOk (woDeleteCmd domain) = false →
        terminate_task w domain (some u) ver =
          [.cmd (woDeleteCmd domain),
           .logError ("Billing: Termination failed for " ++ domain)]) := by
  constructor
  · intro w user sites
    refine ⟨by simp [background_delete], by simp [background_delete], ?_⟩
    intro ver hver hpool
    unfold background_delete
    refine List.mem_append.mpr (Or.inr ?_)
    refine List.mem_flatMap.mpr ⟨ver, hver, ?_⟩
    rw [if_pos hpool]
    exact List.mem_cons_self _ _
  · intro w domain u ver h
    unfold terminate_task
    rw [if_pos h]

/-- C6 witness: the bulk-teardown pool-removal membership and the
terminate-task abort, at a concrete world. -/
theorem C6_teardown_best_effort_amended_witness :
    Event.removeFile ("/etc/php/" ++ "8.1" ++ "/fpm/pool.d/" ++ "u_w" ++ ".conf")
      ∈ background_delete wTearFail "u_w" ["site1.com"] ∧
    terminate_task wTearFail "sitew.com" (some "u_w") "8.1" =
      [.cmd (woDeleteCmd "sitew.com"),
       .logError ("Billing: Termination failed for " ++ "sitew.com")] :=
  ⟨(C6_teardown_best_effort_amended.1 wTearFail "u_w" ["site1.com"]).2.2
      "8.1" (by decide) rfl,
   C6_teardown_best_effort_amended.2 wTearFail "sitew.com" "u_w" "8.1" rfl⟩

/-- C8: the identity-ensure step is idempotent — over any user
database, running it twice for the same identity performs `useradd` at
most once; the second call is exactly the existence probe and leaves
the database untouched. -/
theorem C8_identity_ensure_idempotent :
    ∀ (users : List String) (u : String),
      ((ensureIdentity users u).2
          ++ (ensureIdentity (ensureIdentity users u).1 u).2).countP isUseradd ≤ 1 ∧
      (ensureIdentity (ensureIdentity users u).1 u).2 = [Event.cmd ["id", "-u", u]] ∧
      (ensureIdentity (ensureIdentity users u).1 u).1 = (ensureIdentity users u).1 := by
  intro users u
  by_cases h : u ∈ users <;>
    simp [ensureIdentity, h, List.countP_cons, isUseradd]

end WordopsGui
